import Mathlib

/-!
# Verification of the Parsonage property-management logic

A shallow embedding, in Lean, of the domain logic of the
White-House-Rental-Pro repository (a Google Apps Script property-management
system): payment-status derivation (`checkAllPaymentStatus` in core.js),
rent-reminder and invoice batches (`sendRentReminders`, `sendMonthlyInvoices`,
`markPaymentReceived` in core.js), the monthly revenue report
(`generateMonthlyReport` in core.js), guest-room availability and the booking
lifecycle (`getAvailableGuestRooms`, `processCheckIn`, `processCheckOut`,
`sendBookingConfirmation` in GuestRoomCode.js), and the dynamic pricing
calculator (`calculateDynamicPrice` in GuestRoomBudge.js).

Conventions of the embedding:
* Spreadsheet cells holding dates are modelled at day granularity by a
  civil-calendar date `CalDate`; JavaScript `Date` comparison (numeric
  timestamp order) is modelled by comparing `toDays` values (days since
  1970-01-01, the standard days-from-civil computation), and
  `Date.getDay()` by `dayOfWeek`.
* Monetary amounts and rates are `Rat` (the source uses JS numbers; the
  claims' arithmetic is exact in `Rat`).
* Spreadsheet reads/writes, UI prompts and mail sends are adapter I/O: a
  function that reads rows takes them as a list argument, a function that
  writes a row returns the updated row, and the success of a mail send is a
  boolean parameter (one per recipient address).
* A JavaScript exception aborting a computation is modelled by an `Option`
  result being `none`.
-/

namespace Parsonage

/-! ## Dates

`CalDate` models a calendar day (the value of a date cell, or of a JS `Date`
at local midnight).  `toDays` is the days-since-epoch conversion
(days-from-civil); JS `Date` comparisons and differences in the source are
millisecond-timestamp comparisons and differences, which at day granularity
are exactly comparisons and differences of `toDays`. -/

structure CalDate where
  year : Int
  /-- calendar month, 1–12 -/
  month : Nat
  day : Nat
deriving DecidableEq, Repr

/-- Days since 1970-01-01 (standard civil-from-days algorithm, floor
division). -/
def toDays (d : CalDate) : Int :=
  let y : Int := if d.month ≤ 2 then d.year - 1 else d.year
  let era : Int := y.fdiv 400
  let yoe : Int := y - era * 400
  let mp : Int := if 2 < d.month then (d.month : Int) - 3 else (d.month : Int) + 9
  let doy : Int := (153 * mp + 2).fdiv 5 + (d.day : Int) - 1
  let doe : Int := yoe * 365 + yoe.fdiv 4 - yoe.fdiv 100 + doy
  era * 146097 + doe - 719468

/-- JS `date.getDay()`: 0 = Sunday … 6 = Saturday (1970-01-01 was a
Thursday). -/
def dayOfWeek (d : CalDate) : Int :=
  (toDays d + 4) % 7

/-- core.js: `new Date(today.getFullYear(), today.getMonth(), 1)`. -/
def firstOfMonth (d : CalDate) : CalDate :=
  ⟨d.year, d.month, 1⟩

/-- core.js: `new Date(today.getFullYear(), today.getMonth() - 1, 1)`; a JS
month index of `-1` normalises to December of the previous year. -/
def firstOfPreviousMonth (d : CalDate) : CalDate :=
  if d.month = 1 then ⟨d.year - 1, 12, 1⟩ else ⟨d.year, d.month - 1, 1⟩

/-! ## Payment status (core.js, `checkAllPaymentStatus`, lines 271–309)

The Tenants sheet row, restricted to the columns the embedded functions
read.  A blank cell is `none` (for the optional numeric/date columns) or
`""` (for text columns); a `Last Payment Date` cell that does not hold a
date (`lastPayment instanceof Date` false in the source) is likewise
`none`. -/

structure TenantRow where
  roomNumber : String
  rentalPrice : Rat
  negotiatedPrice : Option Rat
  tenantName : String
  email : String
  roomStatus : String
  lastPayment : Option CalDate
  paymentStatus : String
deriving DecidableEq, Repr

/-- The per-row body of `checkAllPaymentStatus` (core.js lines 285–304).
For a room whose status is not `'Occupied'` the code writes the empty
string to the payment-status column (the spec's `NotApplicable`); otherwise
it starts from `'Overdue'` and upgrades to `'Paid'` when the last payment is
on or after the first of the current month, or to `'Due'` when it is on or
after the first of the previous month. -/
def checkPaymentStatusRow (roomStatus : String) (lastPayment : Option CalDate)
    (today : CalDate) : String :=
  if roomStatus ≠ "Occupied" then ""
  else
    match lastPayment with
    | none => "Overdue"
    | some lp =>
      if toDays (firstOfMonth today) ≤ toDays lp then "Paid"
      else if toDays (firstOfPreviousMonth today) ≤ toDays lp then "Due"
      else "Overdue"

/-- The function `checkAllPaymentStatus` over the whole sheet: each row's payment-status
column is rewritten from its room status and last-payment date. -/
def checkAllPaymentStatus (rows : List TenantRow) (today : CalDate) :
    List TenantRow :=
  rows.map fun r =>
    { r with paymentStatus := checkPaymentStatusRow r.roomStatus r.lastPayment today }

/-! ## String helpers used by the pricing engine

`calculateDynamicPrice` (GuestRoomBudge.js) drives its rule conditions off
plain strings read from the Pricing Rules sheet.  The helpers below model
the exact JS string operations it performs: `split(',')` + `trim`,
`includes`, `match(/\d+/)` + `parseInt`, and `match(/([+-]\d+)%/)` +
`parseInt`. -/

/-- The numeric value of a run of decimal digit characters. -/
def natOfDigits (l : List Char) : Nat :=
  l.foldl (fun n c => 10 * n + (c.toNat - 48)) 0

/-- JS `s.split(',')` (empty fields are kept, as in JS). -/
def jsSplitComma (s : String) : List String :=
  (s.toList.foldr
    (fun c acc =>
      if c = ',' then [] :: acc
      else
        match acc with
        | [] => [[c]]
        | h :: t => (c :: h) :: t)
    [[]]).map String.mk

/-- JS `s.trim()` (the rule conditions only ever carry plain spaces). -/
def jsTrim (s : String) : String :=
  String.mk (((s.toList.dropWhile (· = ' ')).reverse.dropWhile (· = ' ')).reverse)

/-- Whether `pat` occurs at the start of `l`. -/
def startsWithChars : List Char → List Char → Bool
  | [], _ => true
  | _ :: _, [] => false
  | a :: as, b :: bs => a == b && startsWithChars as bs

/-- Whether `pat` occurs somewhere in `l`. -/
def hasSub (pat : List Char) : List Char → Bool
  | [] => startsWithChars pat []
  | c :: rest => startsWithChars pat (c :: rest) || hasSub pat rest

/-- JS `s.includes(pat)`. -/
def strContains (s pat : String) : Bool :=
  hasSub pat.toList s.toList

/-- JS `parseInt(s.match(/\d+/)[0])`: the value of the first maximal run of
digits, or `none` when the string has no digit (in which case the source
dereferences `null` and throws). -/
def findFirstNat : String → Option Nat :=
  fun s => go s.toList
where
  go : List Char → Option Nat
    | [] => none
    | c :: cs =>
      if c.isDigit then some (natOfDigits (c :: cs.takeWhile Char.isDigit))
      else go cs

/-- JS `s.match(/([+-]\d+)%/)` followed by `parseInt` of the capture: the
value of the first sign-digits-percent group, or `none` when the adjustment
string contains no such group (the source's `if (percentMatch)` then skips
the rule silently). -/
def findSignedPercent : String → Option Int :=
  fun s => go s.toList
where
  go : List Char → Option Int
    | [] => none
    | c :: cs =>
      if c = '+' ∨ c = '-' then
        let ds := cs.takeWhile Char.isDigit
        if ds ≠ [] ∧ (cs.dropWhile Char.isDigit).head? = some '%' then
          some ((if c = '-' then -1 else 1) * (natOfDigits ds : Int))
        else go cs
      else go cs

/-! ## Dynamic pricing (GuestRoomBudge.js, `calculateDynamicPrice`,
lines 397–460) -/

/-- A row of the Pricing Rules sheet, columns 1–6 as read by
`calculateDynamicPrice` (`getRange(2, 1, lastRow - 1, 6)`): name, type,
condition, price adjustment, priority, active flag. -/
structure PricingRule where
  name : String
  ruleType : String
  condition : String
  adjustment : String
  priority : Int
  active : String
deriving DecidableEq, Repr

/-- The comparator `(a, b) => a[4] - b[4]` (ascending priority). -/
def ruleLE (a b : PricingRule) : Prop :=
  a.priority ≤ b.priority

instance : DecidableRel ruleLE :=
  fun a b => Int.decLe a.priority b.priority

instance : IsTotal PricingRule ruleLE :=
  ⟨fun a b => Int.le_total a.priority b.priority⟩

instance : IsTrans PricingRule ruleLE :=
  ⟨fun _ _ _ h1 h2 => le_trans h1 h2⟩

/-- The `dayNames` array from the `'Day of Week'` branch. -/
def dayNames : List String :=
  ["Sunday", "Monday", "Tuesday", "Wednesday", "Thursday", "Friday", "Saturday"]

/-- The `Math.ceil` division of `a` by a positive `b` (used for day counts on
millisecond differences). -/
def ceilDiv (a b : Int) : Int :=
  -((-a).fdiv b)

/-- The `switch (type)` of `calculateDynamicPrice`: whether a rule's
condition is satisfied by the stay.  `none` models the exception thrown
when a `'Length of Stay'` condition contains no number
(`condition.match(/\d+/)[0]` on a `null` match); an unrecognised rule type
falls through the `switch` and never applies. -/
def ruleApplies (r : PricingRule) (checkIn : CalDate) (nights window : Int) :
    Option Bool :=
  if r.ruleType = "Day of Week" then
    some (((jsSplitComma r.condition).map jsTrim).contains
      (dayNames.getD (dayOfWeek checkIn).toNat ""))
  else if r.ruleType = "Length of Stay" then
    match findFirstNat r.condition with
    | none => none
    | some m => some (decide ((m : Int) ≤ nights))
  else if r.ruleType = "Booking Window" then
    some ((strContains r.condition "Same day" && window == 0) ||
      (strContains r.condition "30+ days" && decide (30 ≤ window)))
  else if r.ruleType = "Date Range" then
    let m0 : Int := (checkIn.month : Int) - 1
    some ((strContains r.condition "June-August" && decide (5 ≤ m0) && decide (m0 ≤ 7)) ||
      (strContains r.condition "January-February" && decide (m0 ≤ 1)))
  else some false

/-- The body of the rule that the `rules.forEach` applies to an active rule
(the part after `if (rule[5] !== 'Yes') return;`): evaluate the condition
and, when it holds and the adjustment string parses, multiply the running
rate by `(1 + percent/100)` and record `` `${name}: ${adjustment}` ``. -/
def specRuleStep (checkIn : CalDate) (nights window : Int)
    (st : Option (Rat × List String)) (r : PricingRule) :
    Option (Rat × List String) :=
  match st with
  | none => none
  | some (rate, adjs) =>
    match ruleApplies r checkIn nights window with
    | none => none
    | some false => some (rate, adjs)
    | some true =>
      match findSignedPercent r.adjustment with
      | none => some (rate, adjs)
      | some p => some (rate * (1 + (p : Rat) / 100), adjs ++ [r.name ++ ": " ++ r.adjustment])

/-- One iteration of the `rules.forEach`, inactive-rule skip included. -/
def ruleStep (checkIn : CalDate) (nights window : Int)
    (st : Option (Rat × List String)) (r : PricingRule) :
    Option (Rat × List String) :=
  match st with
  | none => none
  | some s =>
    if r.active = "Yes" then specRuleStep checkIn nights window (some s) r
    else some s

/-- The function `calculateDynamicPrice(checkIn, checkOut, baseRate)` on the pricing
rules read from the sheet.  `nowMs` is the millisecond timestamp of the
`new Date()` the source takes for the booking window.  The stay details
are `nights = Math.ceil((checkOut - checkIn) / 86400000)` (an exact day
difference for midnight dates) and
`bookingWindow = Math.ceil((checkIn - now) / 86400000)`; the rules are
sorted ascending by priority (JS `Array.sort` is stable, modelled by
stable insertion sort) and folded over in order.  The result is the
`{rate, adjustments}` object, or `none` when an iteration throws.
(The source's early return of the bare base rate when the Pricing Rules
sheet is missing or empty is the `rules = []` case, for which the fold
also yields the base rate and no adjustments.) -/
def calculateDynamicPrice (rules : List PricingRule)
    (checkIn checkOut : CalDate) (baseRate : Rat) (nowMs : Int) :
    Option (Rat × List String) :=
  let nights := toDays checkOut - toDays checkIn
  let window := ceilDiv (toDays checkIn * 86400000 - nowMs) 86400000
  (rules.insertionSort ruleLE).foldl (ruleStep checkIn nights window)
    (some (baseRate, []))

/-- The pricing algorithm as worded by the spec: filter to the active
rules, stable-sort ascending by priority, then apply each satisfied rule's
multiplicative adjustment in order.  (The source instead sorts every rule
and skips the inactive ones during the fold; the C2 theorem proves the two
agree.) -/
def specCalculateDynamicPrice (rules : List PricingRule)
    (checkIn checkOut : CalDate) (baseRate : Rat) (nowMs : Int) :
    Option (Rat × List String) :=
  let nights := toDays checkOut - toDays checkIn
  let window := ceilDiv (toDays checkIn * 86400000 - nowMs) 86400000
  ((rules.filter fun r => r.active = "Yes").insertionSort ruleLE).foldl
    (specRuleStep checkIn nights window) (some (baseRate, []))

/-! ## Guest rooms and bookings (GuestRoomCode.js) -/

/-- A row of the Guest Rooms sheet, columns 1–8 as read by
`getAvailableGuestRooms` (`room[0]`, `room[1]`, `room[2]`, `room[3]`,
`room[4]`, `room[5]`, `room[6]`, `room[7]`). -/
structure GuestRoom where
  number : String
  name : String
  dailyRate : Rat
  weeklyRate : Rat
  roomType : String
  maxOccupancy : Nat
  amenities : String
  status : String
deriving DecidableEq, Repr

/-- A row of the Guest Bookings sheet, restricted to the columns the
embedded functions read: `booking[0]` Booking ID, `booking[1]` Guest Name,
`booking[2]` Guest Email, `booking[4]` Room Number, `booking[5]`/`booking[6]`
check-in/check-out, `booking[9]` Total Amount, `booking[10]` Amount Paid,
`booking[12]` Booking Status. -/
structure GuestBooking where
  bookingId : String
  guestName : String
  guestEmail : String
  roomNumber : String
  checkIn : CalDate
  checkOut : CalDate
  totalAmount : Rat
  amountPaid : Rat
  status : String
deriving DecidableEq, Repr

/-- The record pushed onto `availableRooms` for each free room. -/
structure AvailableRoom where
  number : String
  name : String
  dailyRate : Rat
  weeklyRate : Rat
  maxOccupancy : Nat
  amenities : String
deriving DecidableEq, Repr

def projectRoom (room : GuestRoom) : AvailableRoom :=
  ⟨room.number, room.name, room.dailyRate, room.weeklyRate,
    room.maxOccupancy, room.amenities⟩

/-- The date-overlap test of `getAvailableGuestRooms`:
`!(checkOut <= bookingCheckIn || checkIn >= bookingCheckOut)` on the
timestamps (half-open intervals). -/
def overlapsReq (reqIn reqOut bIn bOut : Int) : Bool :=
  !(decide (reqOut ≤ bIn) || decide (bOut ≤ reqIn))

/-- The inner `bookingsData.forEach` test: the booking is on this room, is
`'Confirmed'` or `'Checked In'`, and its interval overlaps the request. -/
def bookingBlocks (roomNumber : String) (checkIn checkOut : CalDate)
    (b : GuestBooking) : Bool :=
  b.roomNumber == roomNumber &&
    (b.status == "Confirmed" || b.status == "Checked In") &&
    overlapsReq (toDays checkIn) (toDays checkOut) (toDays b.checkIn) (toDays b.checkOut)

/-- The test under which `getAvailableGuestRooms` keeps a room: the row has
a room number (`if (!room[0]) return;`), no active overlapping booking, and
the room is not flagged `'Maintenance'`. -/
def isAvailableRoom (checkIn checkOut : CalDate) (bookings : List GuestBooking)
    (room : GuestRoom) : Bool :=
  room.number != "" &&
    !(bookings.any (bookingBlocks room.number checkIn checkOut)) &&
    room.status != "Maintenance"

/-- The function `getAvailableGuestRooms(checkIn, checkOut)` over the rooms and bookings
read from the two sheets (GuestRoomCode.js lines 319–365). -/
def getAvailableGuestRooms (checkIn checkOut : CalDate)
    (rooms : List GuestRoom) (bookings : List GuestBooking) :
    List AvailableRoom :=
  (rooms.filter (isAvailableRoom checkIn checkOut bookings)).map projectRoom

/-- The outcome `checkGuestRoomAvailability` shows the user. -/
inductive AvailOutcome where
  | invalidDates
  | roomList (rooms : List AvailableRoom)
deriving DecidableEq, Repr

/-- The function `checkGuestRoomAvailability` (GuestRoomCode.js lines 274–314): the two
prompted dates are `none` when `new Date(text)` is `NaN` (rejected with the
`'Invalid dates entered.'` alert); any two parseable dates — the range is
never validated — go straight to `getAvailableGuestRooms`. -/
def checkGuestRoomAvailability (checkIn checkOut : Option CalDate)
    (rooms : List GuestRoom) (bookings : List GuestBooking) : AvailOutcome :=
  match checkIn, checkOut with
  | some a, some b => .roomList (getAvailableGuestRooms a b rooms bookings)
  | _, _ => .invalidDates

/-- How an operation on the selected booking row ends: rejected by a status
guard (a UI alert, nothing written), aborted by the operator at the
outstanding-balance prompt, or completed. -/
inductive CheckResult where
  | rejected
  | aborted
  | completed
deriving DecidableEq, Repr

/-- The function `processCheckIn` (GuestRoomCode.js lines 370–402) on the selected
booking row: only a `'Confirmed'` booking can be checked in; any other
status is rejected before anything is written.  The returned row is the
state of the booking after the call. -/
def processCheckIn (b : GuestBooking) : CheckResult × GuestBooking :=
  if b.status = "Confirmed" then (.completed, { b with status := "Checked In" })
  else (.rejected, b)

/-- The function `processCheckOut` (GuestRoomCode.js lines 407–454) on the selected
booking row: only a `'Checked In'` booking can be checked out; with an
outstanding balance the operator is asked to confirm (`proceedOnBalance`
is the prompt answer) and a `No` leaves the row untouched. -/
def processCheckOut (b : GuestBooking) (proceedOnBalance : Bool) :
    CheckResult × GuestBooking :=
  if b.status ≠ "Checked In" then (.rejected, b)
  else if b.amountPaid < b.totalAmount ∧ ¬proceedOnBalance then (.aborted, b)
  else (.completed, { b with status := "Checked Out" })

/-- The function `sendBookingConfirmation` (GuestRoomCode.js lines 496–539) on the
selected booking row: `sendOk` is whether `MailApp.sendEmail` succeeds
(on failure the `catch` shows an error alert and nothing is written); only
after a successful send, and only when the booking was `'Pending'`, is the
status promoted to `'Confirmed'`.  The boolean result is whether the
success alert is shown. -/
def sendBookingConfirmation (b : GuestBooking) (sendOk : Bool) :
    Bool × GuestBooking :=
  if sendOk then
    (true, if b.status = "Pending" then { b with status := "Confirmed" } else b)
  else (false, b)

/-- The booking-status transitions the spec's state machine allows. -/
def allowedTransition (oldStatus newStatus : String) : Prop :=
  (oldStatus = "Pending" ∧ newStatus = "Confirmed") ∨
  (oldStatus = "Pending" ∧ newStatus = "Cancelled") ∨
  (oldStatus = "Confirmed" ∧ newStatus = "Checked In") ∨
  (oldStatus = "Confirmed" ∧ newStatus = "Cancelled") ∨
  (oldStatus = "Checked In" ∧ newStatus = "Checked Out")

instance (oldStatus newStatus : String) :
    Decidable (allowedTransition oldStatus newStatus) := by
  unfold allowedTransition
  infer_instance

/-! ## Revenue aggregation (core.js, `generateMonthlyReport`,
lines 532–593) -/

/-- A row of the Budget sheet (Date, Type, Description, Amount, Category);
the amount is positive for income and negative for expense. -/
structure LedgerEntry where
  date : CalDate
  typeTag : String
  description : String
  amount : Rat
  category : String
deriving DecidableEq, Repr

/-- The membership test of `generateMonthlyReport`:
`date >= firstOfMonth && date <= lastOfMonth` (both ends inclusive). -/
def entryInRange (rangeStart rangeEnd : CalDate) (e : LedgerEntry) : Bool :=
  decide (toDays rangeStart ≤ toDays e.date) && decide (toDays e.date ≤ toDays rangeEnd)

/-- The accumulation loop of `generateMonthlyReport`, restricted to the two
totals the report derives its figures from: an entry dated within
`[rangeStart, rangeEnd]` adds to `totalIncome` when its amount is positive
and otherwise adds its absolute value to `totalExpenses`.  (The by-category
maps the report also prints aggregate the same amounts and are not
modelled.) -/
def reportStep (rangeStart rangeEnd : CalDate) (acc : Rat × Rat)
    (e : LedgerEntry) : Rat × Rat :=
  if entryInRange rangeStart rangeEnd e then
    if 0 < e.amount then (acc.1 + e.amount, acc.2)
    else (acc.1, acc.2 + |e.amount|)
  else acc

/-- The `(totalIncome, totalExpenses)` pair accumulated over all Budget
rows. -/
def monthlyTotals (entries : List LedgerEntry) (rangeStart rangeEnd : CalDate) :
    Rat × Rat :=
  entries.foldl (reportStep rangeStart rangeEnd) (0, 0)

/-- The `Net Profit` line of the report: `totalIncome - totalExpenses`. -/
def monthlyNet (entries : List LedgerEntry) (rangeStart rangeEnd : CalDate) : Rat :=
  (monthlyTotals entries rangeStart rangeEnd).1 -
    (monthlyTotals entries rangeStart rangeEnd).2

/-! ## Rent billing and notification batches (core.js) -/

/-- The rent figure every billing path computes:
`row[COL_NEGOTIATED_PRICE - 1] || row[COL_RENTAL_PRICE - 1]` — JS `||`
falls through to the base rental price when the negotiated-price cell is
blank (`none`) or holds the falsy number `0`. -/
def rentForRow (r : TenantRow) : Rat :=
  match r.negotiatedPrice with
  | none => r.rentalPrice
  | some v => if v = 0 then r.rentalPrice else v

/-- The function `markPaymentReceived` (core.js lines 494–527) on the selected tenant
row: the last-payment date is set to today, the payment status to
`'Paid'`, and a `'Rent Income'` row for the billed rent is appended to the
Budget sheet. -/
def markPaymentReceived (r : TenantRow) (today : CalDate) :
    TenantRow × LedgerEntry :=
  ({ r with lastPayment := some today, paymentStatus := "Paid" },
    { date := today, typeTag := "Rent Income",
      description := "Rent from " ++ r.tenantName ++ " - Room " ++ r.roomNumber,
      amount := rentForRow r, category := "Rent" })

/-- What a notification batch leaves behind: the `(email, billed rent)`
pairs it attempted to send (in row order), the `sent` counter, the
`console.error` lines for the units whose send threw, and the closing UI
alert — the only caller-visible report. -/
structure BatchOutcome where
  attempted : List (String × Rat)
  sent : Nat
  errorLog : List String
  alert : String
deriving DecidableEq, Repr

/-- A row qualifies for a rent reminder when its payment status is `'Due'`
or `'Overdue'` and its email cell is non-blank (truthy). -/
def qualifiesReminder (r : TenantRow) : Bool :=
  (r.paymentStatus == "Due" || r.paymentStatus == "Overdue") && r.email != ""

/-- A row qualifies for a monthly invoice when the room is `'Occupied'` and
its email cell is non-blank. -/
def qualifiesInvoice (r : TenantRow) : Bool :=
  r.roomStatus == "Occupied" && r.email != ""

/-- The shared `data.forEach` shape of `sendRentReminders` and
`sendMonthlyInvoices`: each qualifying row is attempted in order, a
successful send increments `sent`, a failed one appends a log line, and
the loop never stops early.  `sendOk e` is whether the mail call for
address `e` succeeds. -/
def batchStep (qualifies : TenantRow → Bool) (logLabel : String)
    (sendOk : String → Bool) (acc : Nat × List (String × Rat) × List String)
    (r : TenantRow) : Nat × List (String × Rat) × List String :=
  if qualifies r then
    if sendOk r.email then
      (acc.1 + 1, acc.2.1 ++ [(r.email, rentForRow r)], acc.2.2)
    else
      (acc.1, acc.2.1 ++ [(r.email, rentForRow r)],
        acc.2.2 ++ [logLabel ++ r.email])
  else acc

/-- The `(sent, attempted, errorLog)` triple the loop accumulates. -/
def runBatch (qualifies : TenantRow → Bool) (logLabel : String)
    (rows : List TenantRow) (sendOk : String → Bool) :
    Nat × List (String × Rat) × List String :=
  rows.foldl (batchStep qualifies logLabel sendOk) (0, [], [])

/-- The function `sendRentReminders` (core.js lines 314–355): reminders go to the
`'Due'`/`'Overdue'` rows with an email; a throwing `MailApp.sendEmail` is
caught, logged (`Failed to send reminder to …`) and the loop continues;
the closing alert reports only the count. -/
def sendRentReminders (rows : List TenantRow) (sendOk : String → Bool) :
    BatchOutcome :=
  let res := runBatch qualifiesReminder "Failed to send reminder to " rows sendOk
  ⟨res.2.1, res.1, res.2.2, "Rent reminders sent: " ++ toString res.1⟩

/-- The function `sendMonthlyInvoices` (core.js lines 399–436): invoices go to the
`'Occupied'` rows with an email; a throwing invoice build or send is
caught, logged (`Failed to send invoice to …`) and the loop continues;
the closing alert reports only the count. -/
def sendMonthlyInvoices (rows : List TenantRow) (sendOk : String → Bool) :
    BatchOutcome :=
  let res := runBatch qualifiesInvoice "Failed to send invoice to " rows sendOk
  ⟨res.2.1, res.1, res.2.2, "Monthly invoices sent: " ++ toString res.1⟩

/-! ## Concrete fixtures used by the claim theorems

These spell out, as rows of the respective sheets, the concrete scenarios
the spec's testable properties describe. -/

/-- The `'Weekend Premium'` sample rule (`setupDynamicPricing`). -/
def c2WeekendRule : PricingRule :=
  ⟨"Weekend Premium", "Day of Week", "Friday, Saturday", "+20%", 1, "Yes"⟩

/-- The `'Weekly Discount'` sample rule (`setupDynamicPricing`). -/
def c2WeeklyRule : PricingRule :=
  ⟨"Weekly Discount", "Length of Stay", "7+ nights", "-10%", 2, "Yes"⟩

/-- An active rule whose condition is satisfied by any weekend check-in but
whose price-adjustment string holds no numeric percentage. -/
def c5BrokenRule : PricingRule :=
  ⟨"Broken Premium", "Day of Week", "Friday, Saturday", "twenty percent", 1, "Yes"⟩

/-- A well-formed second rule for the malformed-adjustment scenario. -/
def c5WeeklyRule : PricingRule :=
  ⟨"Weekly Discount", "Length of Stay", "7+ nights", "-10%", 2, "Yes"⟩

/-- The sample guest room `G1`, not under maintenance. -/
def g1Room : GuestRoom :=
  ⟨"G1", "Guest Suite 1", 75, 450, "Guest Room", 2,
    "Queen bed, Private bath, Mini fridge", "Available"⟩

/-- A confirmed booking of `G1` for the nights [2024-06-10, 2024-06-15). -/
def c3Booking : GuestBooking :=
  ⟨"B001", "Alex Guest", "alex@example.com", "G1",
    ⟨2024, 6, 10⟩, ⟨2024, 6, 15⟩, 375, 375, "Confirmed"⟩

/-- A March 2024 rent-income ledger entry of +800. -/
def c7RentEntry : LedgerEntry :=
  ⟨⟨2024, 3, 5⟩, "Rent Income", "Rent from A - Room 101", 800, "Rent"⟩

/-- A March 2024 repair-expense ledger entry of −150. -/
def c7RepairEntry : LedgerEntry :=
  ⟨⟨2024, 3, 10⟩, "Maintenance", "Plumbing repair", -150, "Repair"⟩

/-- A tenant row with rent due, address `a@example.com`. -/
def c8RowA : TenantRow :=
  ⟨"101", 800, none, "Tenant A", "a@example.com", "Occupied", none, "Due"⟩

/-- A tenant row with rent overdue, address `b@example.com`. -/
def c8RowB : TenantRow :=
  ⟨"102", 800, none, "Tenant B", "b@example.com", "Occupied", none, "Overdue"⟩

/-- A tenant row whose negotiated-price cell holds the number 0 while the
base rental price is 800. -/
def c9ZeroNegotiated : TenantRow :=
  ⟨"103", 800, some 0, "Tenant C", "c@example.com", "Occupied", none, "Due"⟩

/-- A cancelled booking of `G1` overlapping [2024-06-12, 2024-06-14). -/
def c3CancelledBooking : GuestBooking :=
  ⟨"B003", "Casey Guest", "casey@example.com", "G1",
    ⟨2024, 6, 10⟩, ⟨2024, 6, 15⟩, 375, 0, "Cancelled"⟩

/-- A booking still in `'Pending'` status. -/
def c6PendingBooking : GuestBooking :=
  ⟨"B002", "Pat Guest", "pat@example.com", "G2",
    ⟨2024, 7, 1⟩, ⟨2024, 7, 4⟩, 225, 0, "Pending"⟩

/-- Another booking still in `'Pending'` status. -/
def c10PendingBooking : GuestBooking :=
  ⟨"B004", "Robin Guest", "robin@example.com", "G1",
    ⟨2024, 8, 2⟩, ⟨2024, 8, 5⟩, 225, 0, "Pending"⟩

/-! ## Helper lemmas -/

theorem ruleStep_applies (ci : CalDate) (n w : Int) (rate : Rat)
    (adjs : List String) (r : PricingRule) (p : Int)
    (hact : r.active = "Yes")
    (happ : ruleApplies r ci n w = some true)
    (hp : findSignedPercent r.adjustment = some p) :
    ruleStep ci n w (some (rate, adjs)) r =
      some (rate * (1 + (p : Rat) / 100),
        adjs ++ [r.name ++ ": " ++ r.adjustment]) := by
  simp [ruleStep, specRuleStep, hact, happ, hp]

theorem ruleStep_noPercent (ci : CalDate) (n w : Int) (r : PricingRule)
    (hact : r.active = "Yes")
    (happ : ruleApplies r ci n w ≠ none)
    (hp : findSignedPercent r.adjustment = none) :
    ∀ st, ruleStep ci n w st r = st := by
  intro st
  cases st with
  | none => rfl
  | some s =>
    cases s with
    | mk rate adjs =>
      cases h : ruleApplies r ci n w with
      | none => exact absurd h happ
      | some b => cases b <;> simp [ruleStep, specRuleStep, hact, h, hp]

theorem orderedInsert_of_forall (a : PricingRule) (l : List PricingRule)
    (h : ∀ x ∈ l, ruleLE a x) :
    l.orderedInsert ruleLE a = a :: l := by
  cases l with
  | nil => rfl
  | cons b m =>
    rw [List.orderedInsert, if_pos (h b (List.mem_cons_self b m))]

theorem filter_orderedInsert (p : PricingRule → Bool) (a : PricingRule) :
    ∀ l : List PricingRule, l.Sorted ruleLE →
      (l.orderedInsert ruleLE a).filter p =
        if p a then (l.filter p).orderedInsert ruleLE a else l.filter p := by
  intro l
  induction l with
  | nil =>
    intro _
    cases hpa : p a <;> simp [List.orderedInsert, List.filter, hpa]
  | cons b m ih =>
    intro hs
    by_cases hab : ruleLE a b
    · rw [List.orderedInsert, if_pos hab]
      cases hpa : p a with
      | true =>
        cases hpb : p b with
        | true =>
          simp only [List.filter, hpa, hpb, if_pos rfl]
          rw [List.orderedInsert, if_pos hab]
          simp
        | false =>
          simp only [List.filter, hpa, hpb, if_pos rfl]
          have hall : ∀ x ∈ List.filter p m, ruleLE a x := fun x hx =>
            IsTrans.trans a b x hab
              (List.rel_of_sorted_cons hs x (List.mem_of_mem_filter hx))
          rw [orderedInsert_of_forall a _ hall]
          simp
      | false => simp [List.filter, hpa]
    · rw [List.orderedInsert, if_neg hab]
      have ihm := ih hs.of_cons
      cases hpa : p a with
      | true =>
        cases hpb : p b with
        | true =>
          simp only [List.filter, hpb, ihm, hpa, if_pos rfl]
          rw [List.orderedInsert, if_neg hab]
          simp
        | false =>
          simp only [List.filter, hpb, ihm, hpa, if_pos rfl]
      | false =>
        cases hpb : p b with
        | true => simp [List.filter, hpa, hpb, ihm]
        | false => simp [List.filter, hpa, hpb, ihm]

theorem filter_insertionSort (p : PricingRule → Bool) :
    ∀ l : List PricingRule,
      (l.insertionSort ruleLE).filter p = (l.filter p).insertionSort ruleLE := by
  intro l
  induction l with
  | nil => rfl
  | cons a l ih =>
    rw [List.insertionSort,
      filter_orderedInsert p a _ (List.sorted_insertionSort ruleLE l), ih]
    cases hpa : p a with
    | true => simp [List.filter, hpa, List.insertionSort]
    | false => simp [List.filter, hpa]

theorem ruleStep_eq_ite (ci : CalDate) (n w : Int)
    (st : Option (Rat × List String)) (r : PricingRule) :
    ruleStep ci n w st r =
      if r.active = "Yes" then specRuleStep ci n w st r else st := by
  cases st with
  | none =>
    cases h : decide (r.active = "Yes") <;>
      simp_all [ruleStep, specRuleStep]
  | some s => rfl

theorem foldl_ruleStep_filter (ci : CalDate) (n w : Int) :
    ∀ (l : List PricingRule) (st : Option (Rat × List String)),
      l.foldl (ruleStep ci n w) st =
        (l.filter fun r => decide (r.active = "Yes")).foldl
          (specRuleStep ci n w) st := by
  intro l
  induction l with
  | nil => intro st; rfl
  | cons r l ih =>
    intro st
    rw [List.foldl_cons, ruleStep_eq_ite]
    by_cases h : r.active = "Yes"
    · simp [List.filter, h, ih]
    · simp [List.filter, h, ih]

theorem monthlyTotals_acc (rs re : CalDate) :
    ∀ (entries : List LedgerEntry) (a b : Rat),
      entries.foldl (reportStep rs re) (a, b) =
        (a + (((entries.filter fun e =>
                entryInRange rs re e && decide (0 < e.amount)).map
              (fun e => e.amount)).sum),
         b + (((entries.filter fun e =>
                entryInRange rs re e && decide (e.amount < 0)).map
              (fun e => -e.amount)).sum)) := by
  intro entries
  induction entries with
  | nil => intro a b; simp
  | cons e entries ih =>
    intro a b
    rw [List.foldl_cons]
    cases hr : entryInRange rs re e with
    | false => simp [reportStep, hr, ih]
    | true =>
      rcases lt_trichotomy 0 e.amount with hpos | hzero | hneg
      · have : reportStep rs re (a, b) e = (a + e.amount, b) := by
          simp [reportStep, hr, hpos]
        rw [this, ih]
        have hne : ¬ e.amount < 0 := not_lt_of_gt hpos
        simp [List.filter, hr, hpos, hne, add_assoc]
      · have : reportStep rs re (a, b) e = (a, b + |e.amount|) := by
          simp [reportStep, hr, hzero.symm, lt_irrefl]
        rw [this, ih]
        have h0 : |e.amount| = 0 := by rw [← hzero, abs_zero]
        simp [List.filter, hr, ← hzero, lt_irrefl, h0]
      · have : reportStep rs re (a, b) e = (a, b + |e.amount|) := by
          simp [reportStep, hr, not_lt_of_gt hneg]
        rw [this, ih]
        have habs : |e.amount| = -e.amount := abs_of_neg hneg
        simp [List.filter, hr, not_lt_of_gt hneg, hneg, habs, add_assoc]

theorem runBatch_acc (q : TenantRow → Bool) (lbl : String)
    (ok : String → Bool) :
    ∀ (rows : List TenantRow) (acc : Nat × List (String × Rat) × List String),
      rows.foldl (batchStep q lbl ok) acc =
        (acc.1 + (((rows.filter q).filter fun r => ok r.email).length),
         acc.2.1 ++ (rows.filter q).map (fun r => (r.email, rentForRow r)),
         acc.2.2 ++ ((rows.filter q).filter fun r => !(ok r.email)).map
           (fun r => lbl ++ r.email)) := by
  intro rows
  induction rows with
  | nil => intro acc; simp
  | cons r rows ih =>
    intro acc
    rw [List.foldl_cons]
    cases hq : q r with
    | false => simp [batchStep, hq, ih]
    | true =>
      cases hok : ok r.email with
      | true =>
        have : batchStep q lbl ok acc r =
            (acc.1 + 1, acc.2.1 ++ [(r.email, rentForRow r)], acc.2.2) := by
          simp [batchStep, hq, hok]
        rw [this, ih]
        simp [List.filter, hq, hok, Nat.add_assoc, Nat.add_comm 1]
      | false =>
        have : batchStep q lbl ok acc r =
            (acc.1, acc.2.1 ++ [(r.email, rentForRow r)],
              acc.2.2 ++ [lbl ++ r.email]) := by
          simp [batchStep, hq, hok]
        rw [this, ih]
        simp [List.filter, hq, hok]

/-! ## Claim theorems -/

/-- C1: For every room row evaluated at a date `today`: if the room's
occupancy status is not Occupied, the derived payment status is the
not-applicable blank, regardless of the last-payment date; otherwise the
status is `Paid` if the last-payment date is on or after the first day of
the current month (boundary inclusive), `Due` if it is on or after the
first day of the previous month but before the first of the current month,
and `Overdue` otherwise, including when no last-payment date exists. -/
theorem c1_payment_status_derivation (roomStatus : String)
    (lastPayment : Option CalDate) (today : CalDate) :
    (roomStatus ≠ "Occupied" →
      checkPaymentStatusRow roomStatus lastPayment today = "") ∧
    (roomStatus = "Occupied" → lastPayment = none →
      checkPaymentStatusRow roomStatus lastPayment today = "Overdue") ∧
    (roomStatus = "Occupied" → ∀ lp, lastPayment = some lp →
      (toDays (firstOfMonth today) ≤ toDays lp →
        checkPaymentStatusRow roomStatus lastPayment today = "Paid") ∧
      (toDays lp < toDays (firstOfMonth today) →
        toDays (firstOfPreviousMonth today) ≤ toDays lp →
        checkPaymentStatusRow roomStatus lastPayment today = "Due") ∧
      (toDays lp < toDays (firstOfMonth today) →
        toDays lp < toDays (firstOfPreviousMonth today) →
        checkPaymentStatusRow roomStatus lastPayment today = "Overdue")) := by
  refine ⟨fun h => by simp [checkPaymentStatusRow, h],
    fun h hn => by simp [checkPaymentStatusRow, h, hn],
    fun h lp hlp => ?_⟩
  subst hlp
  exact ⟨fun h1 => by simp [checkPaymentStatusRow, h, h1],
    fun h1 h2 => by simp [checkPaymentStatusRow, h, not_le.mpr h1, h2],
    fun h1 h2 => by simp [checkPaymentStatusRow, h, not_le.mpr h1, not_le.mpr h2]⟩

/-- C1 witness: a last payment exactly on the first of the current month is
`Paid` (boundary inclusive). -/
theorem c1_payment_status_witness :
    checkPaymentStatusRow "Occupied" (some ⟨2024, 6, 1⟩) ⟨2024, 6, 15⟩ = "Paid" :=
  ((c1_payment_status_derivation "Occupied" (some ⟨2024, 6, 1⟩)
    ⟨2024, 6, 15⟩).2.2 rfl ⟨2024, 6, 1⟩ rfl).1 (by decide)

/-- C4 counterexample: a zero-night request (check-out equal to check-in)
is not rejected — `checkGuestRoomAvailability` returns a room list (here
containing `G1`), not an `InvalidRangeError`. -/
theorem c4_counterexample :
    toDays (⟨2024, 6, 10⟩ : CalDate) ≤ toDays (⟨2024, 6, 10⟩ : CalDate) ∧
    checkGuestRoomAvailability (some ⟨2024, 6, 10⟩) (some ⟨2024, 6, 10⟩)
        [g1Room] [] = AvailOutcome.roomList [projectRoom g1Room] :=
  ⟨le_refl _, rfl⟩

/-- C4 amended: a request whose check-out date is less than or equal to its
check-in date is not rejected; the availability check runs the ordinary
overlap computation and returns its room list. -/
theorem c4_range_never_validated (checkIn checkOut : CalDate)
    (rooms : List GuestRoom) (bookings : List GuestBooking)
    (_h : toDays checkOut ≤ toDays checkIn) :
    checkGuestRoomAvailability (some checkIn) (some checkOut) rooms bookings =
      AvailOutcome.roomList (getAvailableGuestRooms checkIn checkOut rooms bookings) :=
  rfl

/-- C4 witness: the amended statement at the zero-night request
[2024-06-10, 2024-06-10). -/
theorem c4_range_never_validated_witness :
    checkGuestRoomAvailability (some ⟨2024, 6, 10⟩) (some ⟨2024, 6, 10⟩)
        [g1Room] [c3CancelledBooking] =
      AvailOutcome.roomList
        (getAvailableGuestRooms ⟨2024, 6, 10⟩ ⟨2024, 6, 10⟩
          [g1Room] [c3CancelledBooking]) :=
  c4_range_never_validated ⟨2024, 6, 10⟩ ⟨2024, 6, 10⟩ [g1Room]
    [c3CancelledBooking] (le_refl _)

/-- C9 counterexample: billing does not always use a present negotiated
price — on a row whose negotiated-price cell holds 0 (with base rental
price 800), the billed rent is 800, not the negotiated 0. -/
theorem c9_counterexample :
    ¬ (∀ (row : TenantRow) (v : Rat), row.negotiatedPrice = some v →
        rentForRow row = v) := by
  intro h
  have h0 := h c9ZeroNegotiated 0 rfl
  have h800 : rentForRow c9ZeroNegotiated = 800 := by
    simp [rentForRow, c9ZeroNegotiated]
  rw [h800] at h0
  exact absurd h0 (by norm_num)

/-- C9 amended: the billed rent is the negotiated price when one is present
and non-zero, and the base rental price when the negotiated cell is blank
or holds the (falsy) number 0; `markPaymentReceived` logs exactly this
billed rent. -/
theorem c9_negotiated_overrides_base :
    (∀ (row : TenantRow) (v : Rat), row.negotiatedPrice = some v → v ≠ 0 →
      rentForRow row = v) ∧
    (∀ row : TenantRow,
      row.negotiatedPrice = none ∨ row.negotiatedPrice = some 0 →
      rentForRow row = row.rentalPrice) ∧
    (∀ (row : TenantRow) (today : CalDate),
      (markPaymentReceived row today).2.amount = rentForRow row) :=
  ⟨fun row v hv hnz => by simp [rentForRow, hv, hnz],
   fun row h => by rcases h with h | h <;> simp [rentForRow, h],
   fun _ _ => rfl⟩

/-- C9 witness: the amended statement at the zero-negotiated-price row. -/
theorem c9_negotiated_overrides_base_witness :
    rentForRow c9ZeroNegotiated = c9ZeroNegotiated.rentalPrice :=
  c9_negotiated_overrides_base.2.1 c9ZeroNegotiated (Or.inr rfl)

/-- C10: sending the booking confirmation promotes a Pending booking to
Confirmed only when the email send succeeds; a failed send leaves the
booking row unchanged, and a booking in any other status keeps its status
even after a successful send. -/
theorem c10_confirmation_promotes_only_on_success (b : GuestBooking)
    (sendOk : Bool) :
    (sendOk = false → sendBookingConfirmation b sendOk = (false, b)) ∧
    (sendOk = true → b.status = "Pending" →
      sendBookingConfirmation b sendOk =
        (true, { b with status := "Confirmed" })) ∧
    (sendOk = true → b.status ≠ "Pending" →
      sendBookingConfirmation b sendOk = (true, b)) :=
  ⟨fun h => by simp [sendBookingConfirmation, h],
   fun h hp => by simp [sendBookingConfirmation, h, hp],
   fun h hp => by simp [sendBookingConfirmation, h, hp]⟩

/-- C10 witness: a successful send on a Pending booking yields exactly the
status promotion to Confirmed. -/
theorem c10_confirmation_witness :
    sendBookingConfirmation c10PendingBooking true =
      (true, { c10PendingBooking with status := "Confirmed" }) :=
  (c10_confirmation_promotes_only_on_success c10PendingBooking true).2.1
    rfl rfl

/-- C6: The booking operations only ever perform transitions the lifecycle
state machine allows (Pending to Confirmed, Pending to Cancelled, Confirmed
to Checked In, Confirmed to Cancelled, Checked In to Checked Out);
check-out on a Pending booking is rejected with the booking left entirely
unmodified, and check-in on a booking not in Confirmed status is likewise
rejected without modifying the booking. -/
theorem c6_transition_guards :
    (∀ b : GuestBooking,
      (processCheckIn b).2.status = b.status ∨
        allowedTransition b.status (processCheckIn b).2.status) ∧
    (∀ (b : GuestBooking) (proceed : Bool),
      (processCheckOut b proceed).2.status = b.status ∨
        allowedTransition b.status (processCheckOut b proceed).2.status) ∧
    (∀ (b : GuestBooking) (sendOk : Bool),
      (sendBookingConfirmation b sendOk).2.status = b.status ∨
        allowedTransition b.status (sendBookingConfirmation b sendOk).2.status) ∧
    (∀ (b : GuestBooking) (proceed : Bool), b.status = "Pending" →
      processCheckOut b proceed = (CheckResult.rejected, b)) ∧
    (∀ b : GuestBooking, b.status ≠ "Confirmed" →
      processCheckIn b = (CheckResult.rejected, b)) := by
  refine ⟨?_, ?_, ?_, ?_, ?_⟩
  · intro b
    unfold processCheckIn
    split
    next h =>
      right
      rw [h]
      exact show allowedTransition "Confirmed" "Checked In" by decide
    next => left; rfl
  · intro b proceed
    unfold processCheckOut
    split
    next => left; rfl
    next h =>
      split
      next => left; rfl
      next =>
        right
        rw [not_not.mp h]
        exact show allowedTransition "Checked In" "Checked Out" by decide
  · intro b sendOk
    unfold sendBookingConfirmation
    split
    next =>
      by_cases h : b.status = "Pending"
      · right
        rw [if_pos h, h]
        exact show allowedTransition "Pending" "Confirmed" by decide
      · left
        rw [if_neg h]
    next => left; rfl
  · intro b proceed h
    unfold processCheckOut
    rw [if_pos (show b.status ≠ "Checked In" by rw [h]; decide)]
  · intro b h
    unfold processCheckIn
    rw [if_neg h]

/-- C6 witness: check-out on a Pending booking is rejected with the row
unchanged, and so is check-in on that booking. -/
theorem c6_transition_guards_witness :
    processCheckOut c6PendingBooking true =
      (CheckResult.rejected, c6PendingBooking) ∧
    processCheckIn c6PendingBooking =
      (CheckResult.rejected, c6PendingBooking) :=
  ⟨c6_transition_guards.2.2.2.1 c6PendingBooking true rfl,
   c6_transition_guards.2.2.2.2 c6PendingBooking (by decide)⟩

/-- C7: an entry is counted iff its date lies within the inclusive range;
positive amounts sum into income, negative amounts into expenses as
absolute values, the net is income minus expenses, a zero-amount entry
changes neither total, and the March 2024 example yields income 800,
expenses 150, net 650. -/
theorem c7_revenue_aggregation :
    (∀ (entries : List LedgerEntry) (rangeStart rangeEnd : CalDate),
      monthlyTotals entries rangeStart rangeEnd =
        ((((entries.filter fun e =>
              entryInRange rangeStart rangeEnd e && decide (0 < e.amount)).map
            (fun e => e.amount)).sum),
         (((entries.filter fun e =>
              entryInRange rangeStart rangeEnd e && decide (e.amount < 0)).map
            (fun e => -e.amount)).sum))) ∧
    (∀ (entries : List LedgerEntry) (rangeStart rangeEnd : CalDate),
      monthlyNet entries rangeStart rangeEnd =
        (((entries.filter fun e =>
              entryInRange rangeStart rangeEnd e && decide (0 < e.amount)).map
            (fun e => e.amount)).sum) -
        (((entries.filter fun e =>
              entryInRange rangeStart rangeEnd e && decide (e.amount < 0)).map
            (fun e => -e.amount)).sum)) ∧
    (∀ (entries : List LedgerEntry) (rangeStart rangeEnd : CalDate)
        (e : LedgerEntry), e.amount = 0 →
      monthlyTotals (entries ++ [e]) rangeStart rangeEnd =
        monthlyTotals entries rangeStart rangeEnd) ∧
    (monthlyTotals [c7RentEntry, c7RepairEntry] ⟨2024, 3, 1⟩ ⟨2024, 3, 31⟩ =
        (800, 150) ∧
      monthlyNet [c7RentEntry, c7RepairEntry] ⟨2024, 3, 1⟩ ⟨2024, 3, 31⟩ = 650) := by
  have hmain : ∀ (entries : List LedgerEntry) (rs re : CalDate),
      monthlyTotals entries rs re =
        ((((entries.filter fun e =>
              entryInRange rs re e && decide (0 < e.amount)).map
            (fun e => e.amount)).sum),
         (((entries.filter fun e =>
              entryInRange rs re e && decide (e.amount < 0)).map
            (fun e => -e.amount)).sum)) := by
    intro entries rs re
    rw [monthlyTotals, monthlyTotals_acc]
    simp
  refine ⟨hmain, ?_, ?_, ?_, ?_⟩
  · intro entries rs re
    rw [monthlyNet, hmain]
  · intro entries rs re e h0
    rw [monthlyTotals, monthlyTotals, List.foldl_append]
    cases hr : entryInRange rs re e <;>
      simp [reportStep, hr, h0]
  · have hA : entryInRange ⟨2024, 3, 1⟩ ⟨2024, 3, 31⟩
        ⟨⟨2024, 3, 5⟩, "Rent Income", "Rent from A - Room 101", 800, "Rent"⟩ =
          true := by decide
    have hB : entryInRange ⟨2024, 3, 1⟩ ⟨2024, 3, 31⟩
        ⟨⟨2024, 3, 10⟩, "Maintenance", "Plumbing repair", -150, "Repair"⟩ =
          true := by decide
    norm_num [monthlyTotals, List.foldl, reportStep, hA, hB, c7RentEntry,
      c7RepairEntry, abs]
  · have hA : entryInRange ⟨2024, 3, 1⟩ ⟨2024, 3, 31⟩
        ⟨⟨2024, 3, 5⟩, "Rent Income", "Rent from A - Room 101", 800, "Rent"⟩ =
          true := by decide
    have hB : entryInRange ⟨2024, 3, 1⟩ ⟨2024, 3, 31⟩
        ⟨⟨2024, 3, 10⟩, "Maintenance", "Plumbing repair", -150, "Repair"⟩ =
          true := by decide
    norm_num [monthlyNet, monthlyTotals, List.foldl, reportStep, hA, hB,
      c7RentEntry, c7RepairEntry, abs]

/-- C7 witness: appending a zero-amount March entry changes neither
total. -/
theorem c7_revenue_aggregation_witness :
    monthlyTotals
        ([c7RentEntry, c7RepairEntry] ++
          [⟨⟨2024, 3, 15⟩, "Misc", "Zero entry", 0, "Misc"⟩])
        ⟨2024, 3, 1⟩ ⟨2024, 3, 31⟩ =
      monthlyTotals [c7RentEntry, c7RepairEntry] ⟨2024, 3, 1⟩ ⟨2024, 3, 31⟩ :=
  c7_revenue_aggregation.2.2.1 [c7RentEntry, c7RepairEntry]
    ⟨2024, 3, 1⟩ ⟨2024, 3, 31⟩ ⟨⟨2024, 3, 15⟩, "Misc", "Zero entry", 0, "Misc"⟩
    rfl

/-- C8 counterexample: the caller-visible report of a reminder batch does
not carry the list of per-unit failures — two runs over the same two
qualifying rows, one in which only `a@example.com` fails and one in which
only `b@example.com` fails, show the identical closing alert
`Rent reminders sent: 1`, while only the console log (invisible to the
caller) differs; the batch still attempts both rows. -/
theorem c8_counterexample :
    (sendRentReminders [c8RowA, c8RowB]
        (fun e => e != "a@example.com")).alert =
      (sendRentReminders [c8RowA, c8RowB]
        (fun e => e != "b@example.com")).alert ∧
    (sendRentReminders [c8RowA, c8RowB]
        (fun e => e != "a@example.com")).errorLog ≠
      (sendRentReminders [c8RowA, c8RowB]
        (fun e => e != "b@example.com")).errorLog ∧
    (sendRentReminders [c8RowA, c8RowB]
        (fun e => e != "a@example.com")).alert = "Rent reminders sent: 1" ∧
    ((sendRentReminders [c8RowA, c8RowB]
        (fun e => e != "a@example.com")).attempted.map Prod.fst) =
      ["a@example.com", "b@example.com"] :=
  ⟨by decide, by decide, by decide, by decide⟩

/-- C8 amended: a unit failure never aborts a notification batch — every
qualifying row is attempted in order regardless of other rows' failures,
the successful count is reported in the closing alert, and each failure is
recorded only in the console error log (which is not part of the
caller-visible report). -/
theorem c8_batch_continues_on_failure :
    (∀ (rows : List TenantRow) (sendOk : String → Bool),
      (sendRentReminders rows sendOk).attempted =
        (rows.filter qualifiesReminder).map (fun r => (r.email, rentForRow r)) ∧
      (sendRentReminders rows sendOk).sent =
        (((rows.filter qualifiesReminder).filter
          fun r => sendOk r.email).length) ∧
      (sendRentReminders rows sendOk).errorLog =
        ((rows.filter qualifiesReminder).filter
          fun r => !(sendOk r.email)).map
            (fun r => "Failed to send reminder to " ++ r.email) ∧
      (sendRentReminders rows sendOk).alert =
        "Rent reminders sent: " ++ toString (sendRentReminders rows sendOk).sent) ∧
    (∀ (rows : List TenantRow) (sendOk : String → Bool),
      (sendMonthlyInvoices rows sendOk).attempted =
        (rows.filter qualifiesInvoice).map (fun r => (r.email, rentForRow r)) ∧
      (sendMonthlyInvoices rows sendOk).sent =
        (((rows.filter qualifiesInvoice).filter
          fun r => sendOk r.email).length) ∧
      (sendMonthlyInvoices rows sendOk).errorLog =
        ((rows.filter qualifiesInvoice).filter
          fun r => !(sendOk r.email)).map
            (fun r => "Failed to send invoice to " ++ r.email) ∧
      (sendMonthlyInvoices rows sendOk).alert =
        "Monthly invoices sent: " ++
          toString (sendMonthlyInvoices rows sendOk).sent) := by
  constructor
  · intro rows sendOk
    have h := runBatch_acc qualifiesReminder "Failed to send reminder to "
      sendOk rows (0, [], [])
    refine ⟨?_, ?_, ?_, rfl⟩ <;>
      simp [sendRentReminders, runBatch, h]
  · intro rows sendOk
    have h := runBatch_acc qualifiesInvoice "Failed to send invoice to "
      sendOk rows (0, [], [])
    refine ⟨?_, ?_, ?_, rfl⟩ <;>
      simp [sendMonthlyInvoices, runBatch, h]

/-- C2: the pricing calculation keeps only active rules, applies them in
ascending priority order (equivalently: filtering to the active rules first
and then stable-sorting gives the same result as the code's
sort-then-skip), and each satisfied rule multiplies the running rate by
`(1 + percent/100)`, so adjustments compound multiplicatively in priority
order; in particular base rate 100 with the Weekend +20% (priority 1) and
7-night −10% (priority 2) rules on a 7-night stay checking in on Saturday
2024-06-08 yields `100 * 1.20 * 0.90 = 108` with the applied-adjustment
list in priority order. -/
theorem c2_pricing_priority_compounding :
    (∀ (rules : List PricingRule) (checkIn checkOut : CalDate)
        (baseRate : Rat) (nowMs : Int),
      calculateDynamicPrice rules checkIn checkOut baseRate nowMs =
        specCalculateDynamicPrice rules checkIn checkOut baseRate nowMs) ∧
    calculateDynamicPrice [c2WeekendRule, c2WeeklyRule] ⟨2024, 6, 8⟩
        ⟨2024, 6, 15⟩ 100 (toDays ⟨2024, 6, 1⟩ * 86400000) =
      some (108, ["Weekend Premium: +20%", "Weekly Discount: -10%"]) := by
  constructor
  · intro rules ci co b now
    unfold calculateDynamicPrice specCalculateDynamicPrice
    rw [foldl_ruleStep_filter, filter_insertionSort]
  · show ([c2WeekendRule, c2WeeklyRule].insertionSort ruleLE).foldl
        (ruleStep ⟨2024, 6, 8⟩ 7 7) (some (100, [])) =
      some (108, ["Weekend Premium: +20%", "Weekly Discount: -10%"])
    rw [show ([c2WeekendRule, c2WeeklyRule].insertionSort ruleLE) =
        [c2WeekendRule, c2WeeklyRule] from by decide]
    rw [List.foldl_cons,
      ruleStep_applies ⟨2024, 6, 8⟩ 7 7 100 [] c2WeekendRule 20 rfl
        (by decide) (by decide),
      List.foldl_cons,
      ruleStep_applies ⟨2024, 6, 8⟩ 7 7 _ _ c2WeeklyRule (-10) rfl
        (by decide) (by decide),
      List.foldl_nil]
    have sA : c2WeekendRule.name ++ ": " ++ c2WeekendRule.adjustment =
        "Weekend Premium: +20%" := by decide
    have sB : c2WeeklyRule.name ++ ": " ++ c2WeeklyRule.adjustment =
        "Weekly Discount: -10%" := by decide
    rw [sA, sB]
    norm_num

/-- C5 counterexample: with an active, condition-satisfied rule whose
adjustment string `twenty percent` holds no numeric percentage, the
pricing calculation does not fail — it returns exactly the result the
remaining rules alone produce, and the malformed rule leaves no applied
adjustment. -/
theorem c5_counterexample :
    calculateDynamicPrice [c5BrokenRule, c5WeeklyRule] ⟨2024, 6, 8⟩
        ⟨2024, 6, 15⟩ 100 (toDays ⟨2024, 6, 1⟩ * 86400000) =
      calculateDynamicPrice [c5WeeklyRule] ⟨2024, 6, 8⟩ ⟨2024, 6, 15⟩ 100
        (toDays ⟨2024, 6, 1⟩ * 86400000) ∧
    calculateDynamicPrice [c5BrokenRule, c5WeeklyRule] ⟨2024, 6, 8⟩
        ⟨2024, 6, 15⟩ 100 (toDays ⟨2024, 6, 1⟩ * 86400000) ≠ none ∧
    (calculateDynamicPrice [c5BrokenRule, c5WeeklyRule] ⟨2024, 6, 8⟩
        ⟨2024, 6, 15⟩ 100 (toDays ⟨2024, 6, 1⟩ * 86400000)).map Prod.snd =
      some ["Weekly Discount: -10%"] := by
  have sB : c5WeeklyRule.name ++ ": " ++ c5WeeklyRule.adjustment =
      "Weekly Discount: -10%" := by decide
  have hL : calculateDynamicPrice [c5BrokenRule, c5WeeklyRule] ⟨2024, 6, 8⟩
      ⟨2024, 6, 15⟩ 100 (toDays ⟨2024, 6, 1⟩ * 86400000) =
      some (100 * (1 + ((-10 : Int) : Rat) / 100), ["Weekly Discount: -10%"]) := by
    show ([c5BrokenRule, c5WeeklyRule].insertionSort ruleLE).foldl
        (ruleStep ⟨2024, 6, 8⟩ 7 7) (some (100, [])) = _
    rw [show ([c5BrokenRule, c5WeeklyRule].insertionSort ruleLE) =
        [c5BrokenRule, c5WeeklyRule] from by decide]
    rw [List.foldl_cons,
      ruleStep_noPercent ⟨2024, 6, 8⟩ 7 7 c5BrokenRule rfl (by decide)
        (by decide) _,
      List.foldl_cons,
      ruleStep_applies ⟨2024, 6, 8⟩ 7 7 100 [] c5WeeklyRule (-10) rfl
        (by decide) (by decide),
      List.foldl_nil, List.nil_append, sB]
  have hR : calculateDynamicPrice [c5WeeklyRule] ⟨2024, 6, 8⟩ ⟨2024, 6, 15⟩
      100 (toDays ⟨2024, 6, 1⟩ * 86400000) =
      some (100 * (1 + ((-10 : Int) : Rat) / 100), ["Weekly Discount: -10%"]) := by
    show ([c5WeeklyRule].insertionSort ruleLE).foldl
        (ruleStep ⟨2024, 6, 8⟩ 7 7) (some (100, [])) = _
    rw [show ([c5WeeklyRule].insertionSort ruleLE) = [c5WeeklyRule] from rfl]
    rw [List.foldl_cons,
      ruleStep_applies ⟨2024, 6, 8⟩ 7 7 100 [] c5WeeklyRule (-10) rfl
        (by decide) (by decide),
      List.foldl_nil, List.nil_append, sB]
  exact ⟨hL.trans hR.symm, by rw [hL]; simp, by rw [hL]; simp⟩

/-- C5 amended: an active, condition-satisfied rule whose adjustment string
contains no signed numeric percentage is silently skipped — the processing
step leaves the running rate and the applied-adjustment list unchanged —
and the calculation returns the rate computed from the remaining rules
instead of failing. -/
theorem c5_malformed_rule_skipped :
    (∀ (ci : CalDate) (n w : Int) (r : PricingRule)
        (st : Option (Rat × List String)),
      r.active = "Yes" → ruleApplies r ci n w ≠ none →
      findSignedPercent r.adjustment = none →
      ruleStep ci n w st r = st) ∧
    calculateDynamicPrice [c5BrokenRule, c5WeeklyRule] ⟨2024, 6, 8⟩
        ⟨2024, 6, 15⟩ 100 (toDays ⟨2024, 6, 1⟩ * 86400000) =
      some (90, ["Weekly Discount: -10%"]) := by
  constructor
  · intro ci n w r st hact happ hp
    exact ruleStep_noPercent ci n w r hact happ hp st
  · have sB : c5WeeklyRule.name ++ ": " ++ c5WeeklyRule.adjustment =
        "Weekly Discount: -10%" := by decide
    show ([c5BrokenRule, c5WeeklyRule].insertionSort ruleLE).foldl
        (ruleStep ⟨2024, 6, 8⟩ 7 7) (some (100, [])) = _
    rw [show ([c5BrokenRule, c5WeeklyRule].insertionSort ruleLE) =
        [c5BrokenRule, c5WeeklyRule] from by decide]
    rw [List.foldl_cons,
      ruleStep_noPercent ⟨2024, 6, 8⟩ 7 7 c5BrokenRule rfl (by decide)
        (by decide) _,
      List.foldl_cons,
      ruleStep_applies ⟨2024, 6, 8⟩ 7 7 100 [] c5WeeklyRule (-10) rfl
        (by decide) (by decide),
      List.foldl_nil, List.nil_append, sB]
    norm_num

/-- C5 witness: the skip property applied to the malformed rule itself. -/
theorem c5_malformed_rule_skipped_witness :
    ruleStep ⟨2024, 6, 8⟩ 7 7 (some (100, [])) c5BrokenRule =
      some (100, []) :=
  c5_malformed_rule_skipped.1 ⟨2024, 6, 8⟩ 7 7 c5BrokenRule (some (100, []))
    rfl (by decide) (by decide)

/-- C3: availability returns exactly the rooms (with a room number) that
are not flagged Maintenance and have no Confirmed or Checked In booking
overlapping the request under half-open semantics; Cancelled, Pending and
Checked Out bookings never block; and a room with a Confirmed booking for
[2024-06-10, 2024-06-15) is unavailable for [2024-06-12, 2024-06-14) but
available for [2024-06-15, 2024-06-20). -/
theorem c3_availability_characterisation :
    (∀ (checkIn checkOut : CalDate) (rooms : List GuestRoom)
        (bookings : List GuestBooking),
      getAvailableGuestRooms checkIn checkOut rooms bookings =
        (rooms.filter (isAvailableRoom checkIn checkOut bookings)).map
          projectRoom) ∧
    (∀ (checkIn checkOut : CalDate) (bookings : List GuestBooking)
        (room : GuestRoom),
      isAvailableRoom checkIn checkOut bookings room = true ↔
        (room.number ≠ "" ∧ room.status ≠ "Maintenance" ∧
          ∀ b ∈ bookings, ¬(b.roomNumber = room.number ∧
            (b.status = "Confirmed" ∨ b.status = "Checked In") ∧
            toDays b.checkIn < toDays checkOut ∧
            toDays checkIn < toDays b.checkOut))) ∧
    (∀ (checkIn checkOut : CalDate) (bookings : List GuestBooking)
        (room : GuestRoom) (b : GuestBooking),
      b.status = "Cancelled" ∨ b.status = "Pending" ∨
          b.status = "Checked Out" →
      isAvailableRoom checkIn checkOut (b :: bookings) room =
        isAvailableRoom checkIn checkOut bookings room) ∧
    (getAvailableGuestRooms ⟨2024, 6, 12⟩ ⟨2024, 6, 14⟩ [g1Room]
        [c3Booking] = [] ∧
      getAvailableGuestRooms ⟨2024, 6, 15⟩ ⟨2024, 6, 20⟩ [g1Room]
        [c3Booking] = [projectRoom g1Room]) := by
  refine ⟨fun _ _ _ _ => rfl, ?_, ?_, rfl, rfl⟩
  · intro ci co bookings room
    simp only [isAvailableRoom, Bool.and_eq_true, bne_iff_ne, ne_eq,
      Bool.not_eq_true', List.any_eq_false, bookingBlocks, overlapsReq,
      Bool.and_eq_false_iff, Bool.or_eq_true, beq_iff_eq,
      Bool.or_eq_false_iff, decide_eq_false_iff_not, decide_eq_true_eq,
      not_le, and_assoc]
    tauto
  · intro ci co bookings room b h
    rcases h with h | h | h <;>
      simp [isAvailableRoom, List.any_cons, bookingBlocks, h]

/-- C3 witness: a Cancelled booking never blocks — removing it from the
booking list leaves the availability test unchanged. -/
theorem c3_availability_witness :
    isAvailableRoom ⟨2024, 6, 12⟩ ⟨2024, 6, 14⟩ [c3CancelledBooking]
        g1Room =
      isAvailableRoom ⟨2024, 6, 12⟩ ⟨2024, 6, 14⟩ [] g1Room :=
  c3_availability_characterisation.2.2.1 ⟨2024, 6, 12⟩ ⟨2024, 6, 14⟩ []
    g1Room c3CancelledBooking (Or.inl rfl)

end Parsonage
